import Mathlib

/-!
Verification development for the SCARTIX scaffold-performance predictor
(`streamlit_app.py`).  The core computation is exact decimal arithmetic,
embedded here over `ℚ`.
-/

namespace Scartix

/-- A statistical descriptor `{mean, std}` for one physical property at one
porosity, mirroring the per-property dictionaries of `generate_complete_params`. -/
structure PropertyStat where
  mean : ℚ
  std : ℚ
deriving DecidableEq, Repr

/-- The six per-property statistics stored for a single porosity entry of the
interpolated table (keys `stress`, `strain`, `flow_rate`, `shear_stress`,
`mechanical_strength`, `cell_migration`). -/
structure PropParams where
  stress : PropertyStat
  strain : PropertyStat
  flow_rate : PropertyStat
  shear_stress : PropertyStat
  mechanical_strength : PropertyStat
  cell_migration : PropertyStat
deriving DecidableEq, Repr

/-- Anchor data at porosity 30 (`key_points[30]` in `generate_complete_params`). -/
def keyPoint30 : PropParams :=
  { stress := ⟨5.8913, 1.1549⟩
    strain := ⟨8058.8783, 1648.1018⟩
    flow_rate := ⟨0.3, 0.08⟩
    shear_stress := ⟨300, 20⟩
    mechanical_strength := ⟨100.0, 5.2⟩
    cell_migration := ⟨65.0, 8.1⟩ }

/-- Anchor data at porosity 60 (`key_points[60]`). -/
def keyPoint60 : PropParams :=
  { stress := ⟨1.9460, 0.3939⟩
    strain := ⟨8049.9094, 1628.8954⟩
    flow_rate := ⟨0.5, 0.1⟩
    shear_stress := ⟨200, 15⟩
    mechanical_strength := ⟨70.0, 4.8⟩
    cell_migration := ⟨85.0, 7.4⟩ }

/-- Anchor data at porosity 90 (`key_points[90]`). -/
def keyPoint90 : PropParams :=
  { stress := ⟨0.1197, 0.0242⟩
    strain := ⟨8041.5586, 1646.9436⟩
    flow_rate := ⟨0.7, 0.12⟩
    shear_stress := ⟨150, 10⟩
    mechanical_strength := ⟨40.0, 3.9⟩
    cell_migration := ⟨95.0, 8.8⟩ }

/-- Linear interpolation of one statistic:
`mean1 + factor * (mean2 - mean1)`, same formula for `std`
(the per-property body of the loop in `generate_complete_params`). -/
def interpStat (a b : PropertyStat) (factor : ℚ) : PropertyStat :=
  { mean := a.mean + factor * (b.mean - a.mean)
    std := a.std + factor * (b.std - a.std) }

/-- Interpolation applied to every property, as the inner `for prop in [...]`
loop of `generate_complete_params` does. -/
def interpParams (a b : PropParams) (factor : ℚ) : PropParams :=
  { stress := interpStat a.stress b.stress factor
    strain := interpStat a.strain b.strain factor
    flow_rate := interpStat a.flow_rate b.flow_rate factor
    shear_stress := interpStat a.shear_stress b.shear_stress factor
    mechanical_strength := interpStat a.mechanical_strength b.mechanical_strength factor
    cell_migration := interpStat a.cell_migration b.cell_migration factor }

/-- The table entry computed for one porosity by `generate_complete_params`:
anchor pair `(30, 60)` when `porosity ≤ 60`, otherwise `(60, 90)`, with
`factor = (porosity - p1) / (p2 - p1)`. -/
def paramsAt (porosity : ℤ) : PropParams :=
  if porosity ≤ 60 then
    interpParams keyPoint30 keyPoint60 (((porosity : ℚ) - 30) / (60 - 30))
  else
    interpParams keyPoint60 keyPoint90 (((porosity : ℚ) - 60) / (90 - 60))

/-- `generate_complete_params`: the per-integer-porosity table for
`porosities = list(range(30, 91))`, as an association list in key order. -/
def generate_complete_params : List (ℤ × PropParams) :=
  (List.range 61).map (fun (i : ℕ) => ((30 + (i : ℤ)), paramsAt (30 + (i : ℤ))))

/-- `STATISTICAL_PARAMS = generate_complete_params()`, the process-wide table. -/
def STATISTICAL_PARAMS : List (ℤ × PropParams) :=
  generate_complete_params

/-- `NATIVE_CARTILAGE`: the fixed native-cartilage reference bands. -/
structure NativeRanges where
  stress_range : ℚ × ℚ
  strain_range : ℚ × ℚ
  flow_rate_range : ℚ × ℚ
  shear_stress_range : ℚ × ℚ

/-- The `NATIVE_CARTILAGE` constant of the source. -/
def NATIVE_CARTILAGE : NativeRanges :=
  { stress_range := (1.5, 3.0)
    strain_range := (7500, 8500)
    flow_rate_range := (0.4, 0.6)
    shear_stress_range := (150, 250) }

/-- `TPMSScaffoldSimulator.calculate_cell_migration`. -/
def calculate_cell_migration (porosity flow_rate shear_stress : ℚ) : ℚ :=
  let norm_porosity := (porosity - 30) / 60
  let norm_flow := (flow_rate - 0.3) / 0.4
  let norm_shear := 1 - ((shear_stress - 150) / 150)
  let porosity_weight : ℚ := 0.4
  let flow_weight : ℚ := 0.35
  let shear_weight : ℚ := 0.25
  let migration_score := (norm_porosity * porosity_weight +
                          norm_flow * flow_weight +
                          norm_shear * shear_weight) * 100
  max (min migration_score 100) 0

/-- `TPMSScaffoldSimulator.generate_stress_strain_values` with
`self.n_points = 100`: strain sampled by `np.linspace(mean - 3*std, mean + 3*std, 100)`
(sample `i` is `start + i*(stop-start)/99`) and stress produced by
`np.full_like(strain_values, stress_mean)`. -/
def generate_stress_strain_values (porosity_params : PropParams) : List ℚ × List ℚ :=
  let strain_range := 3 * porosity_params.strain.std
  let start := porosity_params.strain.mean - strain_range
  let stop := porosity_params.strain.mean + strain_range
  let strain_values := (List.range 100).map (fun (i : ℕ) => start + (i : ℚ) * (stop - start) / 99)
  let stress_values := strain_values.map (fun _ => porosity_params.stress.mean)
  (stress_values, strain_values)

/-- `TPMSScaffoldSimulator.generate_flow_rate_values`:
`np.full(self.n_points, flow_rate_mean)`. -/
def generate_flow_rate_values (params : PropParams) : List ℚ :=
  List.replicate 100 params.flow_rate.mean

/-- `TPMSScaffoldSimulator.get_bio_properties`. -/
def get_bio_properties (porosity : ℚ) (params : PropParams) : ℚ × ℚ :=
  let mechanical_strength := params.mechanical_strength.mean
  let cell_migration := calculate_cell_migration porosity
    params.flow_rate.mean params.shear_stress.mean
  (mechanical_strength, cell_migration)

/-- The concrete property values returned by `TPMSScaffoldSimulator.get_values`. -/
structure Bundle where
  stress : ℚ
  strain : ℚ
  flow_rate : ℚ
  mechanical_strength : ℚ
  cell_migration : ℚ
  shear_stress : ℚ
deriving DecidableEq, Repr

/-- The single typed failure of the core: `self.statistical_params[porosity]`
raising a key error for a porosity absent from the table (the spec calls it
`InvalidPorosity`). -/
inductive SimError where
  | invalidPorosity
deriving DecidableEq, Repr

/-- Python dictionary indexing `self.statistical_params[porosity]`: numeric
lookup (`45.0` finds the integer key `45`), raising for absent keys. -/
def lookupParams (porosity : ℚ) : Option PropParams :=
  (STATISTICAL_PARAMS.find? (fun kv => decide ((kv.1 : ℚ) = porosity))).map Prod.snd

/-- `TPMSScaffoldSimulator.get_values`.  The curve sampling it performs on the
side is pure and its result is dropped; the returned bundle uses only the
table means and `get_bio_properties`. -/
def get_values (porosity : ℚ) : Except SimError Bundle :=
  match lookupParams porosity with
  | none => .error .invalidPorosity
  | some params =>
    let flow_rate := params.flow_rate.mean
    let bio := get_bio_properties porosity params
    .ok { stress := params.stress.mean
          strain := params.strain.mean
          flow_rate := flow_rate
          mechanical_strength := bio.1
          cell_migration := bio.2
          shear_stress := params.shear_stress.mean }

/-- The label mapping produced by `TPMSScaffoldSimulator.interpret_results`. -/
structure Interpretations where
  stress : String
  strain : String
  flow_rate : String
  shear_stress : String
  mechanical_strength : String
  cell_migration : String
deriving DecidableEq, Repr

/-- `TPMSScaffoldSimulator.interpret_results`: one ordered three-way
classification per reference-banded property, and tiered classification for
the two percentage metrics. -/
def interpret_results (values : Bundle) : Interpretations :=
  { stress :=
      if NATIVE_CARTILAGE.stress_range.1 ≤ values.stress ∧
          values.stress ≤ NATIVE_CARTILAGE.stress_range.2 then
        "Optimal - Within native cartilage range"
      else if values.stress < NATIVE_CARTILAGE.stress_range.1 then
        "Suboptimal - Lower than native cartilage"
      else
        "Suboptimal - Higher than native cartilage"
    strain :=
      if NATIVE_CARTILAGE.strain_range.1 ≤ values.strain ∧
          values.strain ≤ NATIVE_CARTILAGE.strain_range.2 then
        "Optimal - Within native cartilage range"
      else if values.strain < NATIVE_CARTILAGE.strain_range.1 then
        "Suboptimal - Lower than native cartilage"
      else
        "Suboptimal - Higher than native cartilage"
    flow_rate :=
      if NATIVE_CARTILAGE.flow_rate_range.1 ≤ values.flow_rate ∧
          values.flow_rate ≤ NATIVE_CARTILAGE.flow_rate_range.2 then
        "Optimal - Promotes nutrient transport"
      else if values.flow_rate < NATIVE_CARTILAGE.flow_rate_range.1 then
        "Suboptimal - May limit nutrient transport"
      else
        "Suboptimal - May cause excessive shear stress"
    shear_stress :=
      if NATIVE_CARTILAGE.shear_stress_range.1 ≤ values.shear_stress ∧
          values.shear_stress ≤ NATIVE_CARTILAGE.shear_stress_range.2 then
        "Optimal - Suitable for cell viability"
      else if values.shear_stress < NATIVE_CARTILAGE.shear_stress_range.1 then
        "Suboptimal - May not stimulate cells sufficiently"
      else
        "Suboptimal - May cause cell damage"
    mechanical_strength :=
      if values.mechanical_strength ≥ 80 then
        "Excellent - Close to native cartilage"
      else if 60 ≤ values.mechanical_strength ∧ values.mechanical_strength < 80 then
        "Good - Suitable for load-bearing"
      else
        "Fair - May need reinforcement"
    cell_migration :=
      if values.cell_migration ≥ 85 then
        "Excellent - Optimal for cell infiltration"
      else if 70 ≤ values.cell_migration ∧ values.cell_migration < 85 then
        "Good - Supports cell movement"
      else if 50 ≤ values.cell_migration ∧ values.cell_migration < 70 then
        "Fair - Limited cell distribution"
      else
        "Poor - Significant barriers to cell movement" }

/-- The six property keys used by the score dictionary and the
`critical_factors` lists (Python uses the literal strings
"stress", "strain", "flow_rate", "shear_stress", "mechanical_strength",
"cell_migration"). -/
inductive PropName where
  | stress
  | strain
  | flow_rate
  | shear_stress
  | mechanical_strength
  | cell_migration
deriving DecidableEq, Repr

/-- A `{min, optimal}` requirement pair of a tissue profile. -/
structure MinOpt where
  lo : ℚ
  optimal : ℚ
deriving DecidableEq, Repr

/-- One named tissue profile of the effective (second) `TISSUE_PROPERTIES`
catalog. -/
structure TissueReqs where
  stress : MinOpt
  strain : MinOpt
  flow_rate : MinOpt
  shear_stress : MinOpt
  mechanical_strength_threshold : ℚ
  cell_migration_threshold : ℚ
  description : String
  critical_factors : List PropName
deriving DecidableEq, Repr

/-- The `articular_cartilage` entry of the effective `TISSUE_PROPERTIES`. -/
def articular_cartilage : TissueReqs :=
  { stress := ⟨5.0, 7.0⟩
    strain := ⟨7000, 8500⟩
    flow_rate := ⟨0.2, 0.25⟩
    shear_stress := ⟨280, 320⟩
    mechanical_strength_threshold := 70
    cell_migration_threshold := 65
    description := "Load-bearing cartilage in joints"
    critical_factors := [.stress, .shear_stress, .mechanical_strength] }

/-- The `meniscus` entry of the effective `TISSUE_PROPERTIES`. -/
def meniscus : TissueReqs :=
  { stress := ⟨4.0, 6.0⟩
    strain := ⟨6500, 8000⟩
    flow_rate := ⟨0.15, 0.2⟩
    shear_stress := ⟨250, 300⟩
    mechanical_strength_threshold := 65
    cell_migration_threshold := 60
    description := "Knee meniscus tissue"
    critical_factors := [.stress, .strain, .mechanical_strength] }

/-- The `bone_tissue` entry of the effective `TISSUE_PROPERTIES`. -/
def bone_tissue : TissueReqs :=
  { stress := ⟨15.0, 20.0⟩
    strain := ⟨2000, 3000⟩
    flow_rate := ⟨0.1, 0.15⟩
    shear_stress := ⟨400, 500⟩
    mechanical_strength_threshold := 80
    cell_migration_threshold := 55
    description := "Bone tissue with high mechanical demands"
    critical_factors := [.stress, .strain, .mechanical_strength] }

/-- The `skin` entry of the effective `TISSUE_PROPERTIES`. -/
def skin : TissueReqs :=
  { stress := ⟨1.0, 2.0⟩
    strain := ⟨10000, 12000⟩
    flow_rate := ⟨0.3, 0.4⟩
    shear_stress := ⟨100, 150⟩
    mechanical_strength_threshold := 50
    cell_migration_threshold := 75
    description := "Dermal tissue with high elasticity requirements"
    critical_factors := [.strain, .flow_rate, .cell_migration] }

/-- The `blood_vessel` entry of the effective `TISSUE_PROPERTIES`. -/
def blood_vessel : TissueReqs :=
  { stress := ⟨2.0, 3.0⟩
    strain := ⟨9000, 11000⟩
    flow_rate := ⟨0.4, 0.5⟩
    shear_stress := ⟨200, 250⟩
    mechanical_strength_threshold := 60
    cell_migration_threshold := 70
    description := "Vascular tissue with specific flow requirements"
    critical_factors := [.flow_rate, .shear_stress, .cell_migration] }

/-- The effective (second, overriding) `TISSUE_PROPERTIES` catalog, in
dictionary insertion order. -/
def TISSUE_PROPERTIES : List (String × TissueReqs) :=
  [("articular_cartilage", articular_cartilage),
   ("meniscus", meniscus),
   ("bone_tissue", bone_tissue),
   ("skin", skin),
   ("blood_vessel", blood_vessel)]

/-- Per-property score of `evaluate_tissue_compatibility` for the four
min/optimal properties. -/
def scoreMinOpt (actual_value : ℚ) (req : MinOpt) : ℚ :=
  if actual_value ≥ req.optimal then 1
  else if actual_value ≥ req.lo then
    (actual_value - req.lo) / (req.optimal - req.lo) * 0.5 + 0.5
  else max 0 (actual_value / req.lo * 0.5)

/-- The tiered mechanical-strength score of `evaluate_tissue_compatibility`. -/
def scoreMech (mech_strength : ℚ) : ℚ :=
  if mech_strength ≥ 80 then 1
  else if mech_strength ≥ 60 then 0.75
  else if mech_strength ≥ 40 then 0.5
  else 0.25

/-- The tiered cell-migration score of `evaluate_tissue_compatibility`. -/
def scoreCellMigr (cell_migr : ℚ) : ℚ :=
  if cell_migr ≥ 75 then 1
  else if cell_migr ≥ 60 then 0.75
  else if cell_migr ≥ 45 then 0.5
  else 0.25

/-- The `scores` dictionary built by `evaluate_tissue_compatibility`, in
insertion order.  Both arguments always carry all six keys, so every branch
of the Python membership guards is taken. -/
def bundleScores (scaffold_props : Bundle) (tissue_reqs : TissueReqs) : List (PropName × ℚ) :=
  [(.stress, scoreMinOpt scaffold_props.stress tissue_reqs.stress),
   (.strain, scoreMinOpt scaffold_props.strain tissue_reqs.strain),
   (.flow_rate, scoreMinOpt scaffold_props.flow_rate tissue_reqs.flow_rate),
   (.shear_stress, scoreMinOpt scaffold_props.shear_stress tissue_reqs.shear_stress),
   (.mechanical_strength, scoreMech scaffold_props.mechanical_strength),
   (.cell_migration, scoreCellMigr scaffold_props.cell_migration)]

/-- The critical-factor list after the two conditional `append` calls of
`evaluate_tissue_compatibility`.  The Python code appends to the very list
object stored in the profile, so this is also the state of the profile's
`critical_factors` after the call. -/
def augmentedCriticalFactors (scaffold_props : Bundle) (tissue_reqs : TissueReqs) :
    List PropName :=
  let cf := tissue_reqs.critical_factors
  let cf := if scaffold_props.mechanical_strength ≥ 70 then
    cf ++ [.mechanical_strength] else cf
  if scaffold_props.cell_migration ≥ 65 then cf ++ [.cell_migration] else cf

/-- Dictionary access `scores[k]` over the score association list (first and
only binding for a key). -/
def dictGet : List (PropName × ℚ) → PropName → Option ℚ
  | [], _ => none
  | (a, v) :: rest, k => if a = k then some v else dictGet rest k

/-- `evaluate_tissue_compatibility`.  Returns the final score and the score
dictionary as the source does, plus — making explicit the in-place mutation
the source performs on the list stored under the critical-factor key of
`tissue_reqs` — the state of the tissue profile after the call. -/
def evaluate_tissue_compatibility (scaffold_props : Bundle) (tissue_reqs : TissueReqs) :
    ℚ × List (PropName × ℚ) × TissueReqs :=
  let scores := bundleScores scaffold_props tissue_reqs
  let critical_factors := augmentedCriticalFactors scaffold_props tissue_reqs
  let base_score :=
    if critical_factors ≠ [] then
      let weighted_score :=
        (critical_factors.filterMap
          (fun f => (dictGet scores f).map (fun s => 2 * s))).sum
        + ((scores.filter (fun ps => !(decide (ps.1 ∈ critical_factors)))).map Prod.snd).sum
      let ncrit := (critical_factors.filter (fun f => (dictGet scores f).isSome)).length
      let total_weight : ℤ := (ncrit : ℤ) * 2 + ((scores.length : ℤ) - (ncrit : ℤ))
      weighted_score / (total_weight : ℚ)
    else
      (scores.map Prod.snd).sum / (scores.length : ℚ)
  let final_score :=
    if scaffold_props.mechanical_strength < 40 ∨ scaffold_props.cell_migration < 45 then
      base_score * 0.5
    else base_score
  (final_score, scores, { tissue_reqs with critical_factors := critical_factors })

/-- The deterministic closed form of the bundle `get_values` returns for an
in-table porosity: table means plus the recomputed cell-migration score. -/
def bundleOf (n : ℤ) : Bundle :=
  let params := paramsAt n
  { stress := params.stress.mean
    strain := params.strain.mean
    flow_rate := params.flow_rate.mean
    mechanical_strength := params.mechanical_strength.mean
    cell_migration := calculate_cell_migration (n : ℚ)
      params.flow_rate.mean params.shear_stress.mean
    shear_stress := params.shear_stress.mean }

end Scartix

namespace Scartix
section Helpers

/-- Clamping a value known to lie in `[0, 100]` is the identity. -/
theorem clamp_eq (x y : ℚ) (hxy : x = y) (h0 : 0 ≤ y) (h100 : y ≤ 100) :
    max (min x 100) 0 = y := by
  rw [hxy, min_eq_left h100, max_eq_left h0]

/-- The clamp `max (min x 100) 0` always lands in `[0, 100]`. -/
theorem clamp_mem (x : ℚ) : 0 ≤ max (min x 100) 0 ∧ max (min x 100) 0 ≤ 100 :=
  ⟨le_max_right _ _, max_le (min_le_right _ _) (by norm_num)⟩

/-- Branch selection of `generate_complete_params` for `porosity ≤ 60`. -/
theorem paramsAt_low (p : ℤ) (h : p ≤ 60) :
    paramsAt p = interpParams keyPoint30 keyPoint60 (((p : ℚ) - 30) / (60 - 30)) :=
  if_pos h

/-- Branch selection of `generate_complete_params` for `porosity > 60`. -/
theorem paramsAt_high (p : ℤ) (h : ¬ p ≤ 60) :
    paramsAt p = interpParams keyPoint60 keyPoint90 (((p : ℚ) - 60) / (90 - 60)) :=
  if_neg h

/-- Cell migration of the bundle, closed form on the `(30, 60)` branch. -/
theorem cm_low (p : ℤ) (h1 : (30 : ℤ) ≤ p) (h2 : p ≤ 60) :
    (bundleOf p).cell_migration = 65 * ((p : ℚ) - 30) / 36 := by
  have hq1 : (30 : ℚ) ≤ (p : ℚ) := by exact_mod_cast h1
  have hq2 : ((p : ℚ)) ≤ 60 := by exact_mod_cast h2
  show max (min _ 100) 0 = _
  rw [paramsAt_low p h2]
  apply clamp_eq
  · show ((((p : ℚ) - 30) / 60) * _ + _ * _ + _ * _) * 100 = _
    norm_num [interpParams, interpStat, keyPoint30, keyPoint60]
    ring
  · linarith
  · linarith

/-- Cell migration of the bundle, closed form on the `(60, 90)` branch. -/
theorem cm_high (p : ℤ) (h1 : ¬ p ≤ 60) (h2 : p ≤ 90) :
    (bundleOf p).cell_migration = 325 / 6 + 55 * ((p : ℚ) - 60) / 36 := by
  have hq1 : (60 : ℚ) < (p : ℚ) := by exact_mod_cast not_le.mp h1
  have hq2 : ((p : ℚ)) ≤ 90 := by exact_mod_cast h2
  show max (min _ 100) 0 = _
  rw [paramsAt_high p h1]
  apply clamp_eq
  · show ((((p : ℚ) - 30) / 60) * _ + _ * _ + _ * _) * 100 = _
    norm_num [interpParams, interpStat, keyPoint60, keyPoint90]
    ring
  · linarith
  · linarith

/-- Mechanical strength of the bundle: both interpolation branches give
`130 - p`. -/
theorem mech_eq (p : ℤ) : (bundleOf p).mechanical_strength = 130 - (p : ℚ) := by
  show (paramsAt p).mechanical_strength.mean = _
  unfold paramsAt
  split_ifs <;> norm_num [interpParams, interpStat, keyPoint30, keyPoint60, keyPoint90] <;> ring

/-- Shear stress of the bundle, closed form on the `(30, 60)` branch. -/
theorem shear_low (p : ℤ) (h : p ≤ 60) :
    (bundleOf p).shear_stress = 300 - 10 * ((p : ℚ) - 30) / 3 := by
  show (paramsAt p).shear_stress.mean = _
  rw [paramsAt_low p h]
  norm_num [interpParams, interpStat, keyPoint30, keyPoint60]
  ring

/-- Shear stress of the bundle, closed form on the `(60, 90)` branch. -/
theorem shear_high (p : ℤ) (h : ¬ p ≤ 60) :
    (bundleOf p).shear_stress = 200 - 5 * ((p : ℚ) - 60) / 3 := by
  show (paramsAt p).shear_stress.mean = _
  rw [paramsAt_high p h]
  norm_num [interpParams, interpStat, keyPoint60, keyPoint90]
  ring

/-- Strain of the bundle, closed form on the `(30, 60)` branch. -/
theorem strain_low (p : ℤ) (h : p ≤ 60) :
    (bundleOf p).strain = 8058.8783 - 8.9689 * ((p : ℚ) - 30) / 30 := by
  show (paramsAt p).strain.mean = _
  rw [paramsAt_low p h]
  norm_num [interpParams, interpStat, keyPoint30, keyPoint60]
  ring

/-- Strain of the bundle, closed form on the `(60, 90)` branch. -/
theorem strain_high (p : ℤ) (h : ¬ p ≤ 60) :
    (bundleOf p).strain = 8049.9094 - 8.3508 * ((p : ℚ) - 60) / 30 := by
  show (paramsAt p).strain.mean = _
  rw [paramsAt_high p h]
  norm_num [interpParams, interpStat, keyPoint60, keyPoint90]
  ring

/-- Stress of the bundle, closed form on the `(30, 60)` branch. -/
theorem stress_low (p : ℤ) (h : p ≤ 60) :
    (bundleOf p).stress = 5.8913 - 3.9453 * ((p : ℚ) - 30) / 30 := by
  show (paramsAt p).stress.mean = _
  rw [paramsAt_low p h]
  norm_num [interpParams, interpStat, keyPoint30, keyPoint60]
  ring

/-- Stress of the bundle, closed form on the `(60, 90)` branch. -/
theorem stress_high (p : ℤ) (h : ¬ p ≤ 60) :
    (bundleOf p).stress = 1.9460 - 1.8263 * ((p : ℚ) - 60) / 30 := by
  show (paramsAt p).stress.mean = _
  rw [paramsAt_high p h]
  norm_num [interpParams, interpStat, keyPoint60, keyPoint90]
  ring

/-- Flow rate of the bundle, closed form on the `(30, 60)` branch. -/
theorem flow_low (p : ℤ) (h : p ≤ 60) :
    (bundleOf p).flow_rate = 3 / 10 + ((p : ℚ) - 30) / 150 := by
  show (paramsAt p).flow_rate.mean = _
  rw [paramsAt_low p h]
  norm_num [interpParams, interpStat, keyPoint30, keyPoint60]
  ring

/-- Flow rate of the bundle, closed form on the `(60, 90)` branch. -/
theorem flow_high (p : ℤ) (h : ¬ p ≤ 60) :
    (bundleOf p).flow_rate = 1 / 2 + ((p : ℚ) - 60) / 150 := by
  show (paramsAt p).flow_rate.mean = _
  rw [paramsAt_high p h]
  norm_num [interpParams, interpStat, keyPoint60, keyPoint90]
  ring

/-- The min/optimal property score is nonnegative whenever the profile has
`0 < min < optimal` (all catalog profiles do). -/
theorem scoreMinOpt_nonneg (v : ℚ) (r : MinOpt) (h0 : 0 < r.lo) (h1 : r.lo < r.optimal) :
    0 ≤ scoreMinOpt v r := by
  unfold scoreMinOpt
  split_ifs with ha hb
  · norm_num
  · have hd : (0 : ℚ) ≤ (v - r.lo) / (r.optimal - r.lo) :=
      div_nonneg (by linarith [hb]) (by linarith)
    norm_num
    linarith
  · exact le_max_left _ _

/-- The min/optimal property score is at most one whenever the profile has
`0 < min < optimal`. -/
theorem scoreMinOpt_le_one (v : ℚ) (r : MinOpt) (h0 : 0 < r.lo) (h1 : r.lo < r.optimal) :
    scoreMinOpt v r ≤ 1 := by
  unfold scoreMinOpt
  split_ifs with ha hb
  · norm_num
  · have hd : (v - r.lo) / (r.optimal - r.lo) ≤ 1 := by
      rw [div_le_one (by linarith)]
      linarith [not_le.mp ha]
    norm_num
    linarith
  · refine max_le (by norm_num) ?_
    have hd : v / r.lo ≤ 1 := by
      rw [div_le_one h0]
      linarith [not_le.mp hb]
    linarith

/-- The tiered mechanical-strength score lies in `[1/4, 1]`. -/
theorem scoreMech_mem (m : ℚ) : 1 / 4 ≤ scoreMech m ∧ scoreMech m ≤ 1 := by
  unfold scoreMech
  split_ifs <;> norm_num

/-- Below the 80 threshold the mechanical-strength score is at most `3/4`. -/
theorem scoreMech_lt80 (m : ℚ) (h : ¬ m ≥ 80) : scoreMech m ≤ 3 / 4 := by
  unfold scoreMech
  rw [if_neg h]
  split_ifs <;> norm_num

/-- The tiered cell-migration score lies in `[1/4, 1]`. -/
theorem scoreCellMigr_mem (c : ℚ) : 1 / 4 ≤ scoreCellMigr c ∧ scoreCellMigr c ≤ 1 := by
  unfold scoreCellMigr
  split_ifs <;> norm_num

end Helpers
end Scartix

namespace Scartix
section Collapse

/-- The critical factors declared by the `articular_cartilage` profile. -/
theorem art_cf : articular_cartilage.critical_factors =
    [.stress, .shear_stress, .mechanical_strength] := rfl

/-- The critical factors declared by the `meniscus` profile. -/
theorem men_cf : meniscus.critical_factors =
    [.stress, .strain, .mechanical_strength] := rfl

/-- The critical factors declared by the `bone_tissue` profile. -/
theorem bone_cf : bone_tissue.critical_factors =
    [.stress, .strain, .mechanical_strength] := rfl

/-- The critical factors declared by the `skin` profile. -/
theorem skin_cf : skin.critical_factors =
    [.strain, .flow_rate, .cell_migration] := rfl

/-- The critical factors declared by the `blood_vessel` profile. -/
theorem bv_cf : blood_vessel.critical_factors =
    [.flow_rate, .shear_stress, .cell_migration] := rfl

/-- Collapsed weighted-score formula for `articular_cartilage`, case A. -/
theorem evalA_art (b : Bundle)
    (hm : ¬ b.mechanical_strength ≥ 70) (hc : ¬ b.cell_migration ≥ 65) :
    (evaluate_tissue_compatibility b articular_cartilage).1 =
      (if b.mechanical_strength < 40 ∨ b.cell_migration < 45 then (1:ℚ)/2 else 1) *
      ((2 * scoreMinOpt b.stress articular_cartilage.stress
        + scoreMinOpt b.strain articular_cartilage.strain
        + scoreMinOpt b.flow_rate articular_cartilage.flow_rate
        + 2 * scoreMinOpt b.shear_stress articular_cartilage.shear_stress
        + 2 * scoreMech b.mechanical_strength
        + scoreCellMigr b.cell_migration) / 9) := by
  simp only [evaluate_tissue_compatibility, bundleScores, augmentedCriticalFactors,
    if_neg hm, if_neg hc, art_cf]
  norm_num +decide [dictGet, List.filterMap, List.filter, List.sum]
  split_ifs <;> ring

/-- Collapsed weighted-score formula for `articular_cartilage`, case B. -/
theorem evalB_art (b : Bundle)
    (hm : b.mechanical_strength ≥ 70) (hc : ¬ b.cell_migration ≥ 65) :
    (evaluate_tissue_compatibility b articular_cartilage).1 =
      (if b.mechanical_strength < 40 ∨ b.cell_migration < 45 then (1:ℚ)/2 else 1) *
      ((2 * scoreMinOpt b.stress articular_cartilage.stress
        + scoreMinOpt b.strain articular_cartilage.strain
        + scoreMinOpt b.flow_rate articular_cartilage.flow_rate
        + 2 * scoreMinOpt b.shear_stress articular_cartilage.shear_stress
        + 4 * scoreMech b.mechanical_strength
        + scoreCellMigr b.cell_migration) / 10) := by
  simp only [evaluate_tissue_compatibility, bundleScores, augmentedCriticalFactors,
    if_pos hm, if_neg hc, art_cf]
  norm_num +decide [dictGet, List.filterMap, List.filter, List.sum]
  split_ifs <;> ring

/-- Collapsed weighted-score formula for `articular_cartilage`, case C. -/
theorem evalC_art (b : Bundle)
    (hm : ¬ b.mechanical_strength ≥ 70) (hc : b.cell_migration ≥ 65) :
    (evaluate_tissue_compatibility b articular_cartilage).1 =
      (if b.mechanical_strength < 40 ∨ b.cell_migration < 45 then (1:ℚ)/2 else 1) *
      ((2 * scoreMinOpt b.stress articular_cartilage.stress
        + scoreMinOpt b.strain articular_cartilage.strain
        + scoreMinOpt b.flow_rate articular_cartilage.flow_rate
        + 2 * scoreMinOpt b.shear_stress articular_cartilage.shear_stress
        + 2 * scoreMech b.mechanical_strength
        + 2 * scoreCellMigr b.cell_migration) / 10) := by
  simp only [evaluate_tissue_compatibility, bundleScores, augmentedCriticalFactors,
    if_neg hm, if_pos hc, art_cf]
  norm_num +decide [dictGet, List.filterMap, List.filter, List.sum]
  split_ifs <;> ring

/-- Collapsed weighted-score formula for `meniscus`, case A. -/
theorem evalA_men (b : Bundle)
    (hm : ¬ b.mechanical_strength ≥ 70) (hc : ¬ b.cell_migration ≥ 65) :
    (evaluate_tissue_compatibility b meniscus).1 =
      (if b.mechanical_strength < 40 ∨ b.cell_migration < 45 then (1:ℚ)/2 else 1) *
      ((2 * scoreMinOpt b.stress meniscus.stress
        + 2 * scoreMinOpt b.strain meniscus.strain
        + scoreMinOpt b.flow_rate meniscus.flow_rate
        + scoreMinOpt b.shear_stress meniscus.shear_stress
        + 2 * scoreMech b.mechanical_strength
        + scoreCellMigr b.cell_migration) / 9) := by
  simp only [evaluate_tissue_compatibility, bundleScores, augmentedCriticalFactors,
    if_neg hm, if_neg hc, men_cf]
  norm_num +decide [dictGet, List.filterMap, List.filter, List.sum]
  split_ifs <;> ring

/-- Collapsed weighted-score formula for `meniscus`, case B. -/
theorem evalB_men (b : Bundle)
    (hm : b.mechanical_strength ≥ 70) (hc : ¬ b.cell_migration ≥ 65) :
    (evaluate_tissue_compatibility b meniscus).1 =
      (if b.mechanical_strength < 40 ∨ b.cell_migration < 45 then (1:ℚ)/2 else 1) *
      ((2 * scoreMinOpt b.stress meniscus.stress
        + 2 * scoreMinOpt b.strain meniscus.strain
        + scoreMinOpt b.flow_rate meniscus.flow_rate
        + scoreMinOpt b.shear_stress meniscus.shear_stress
        + 4 * scoreMech b.mechanical_strength
        + scoreCellMigr b.cell_migration) / 10) := by
  simp only [evaluate_tissue_compatibility, bundleScores, augmentedCriticalFactors,
    if_pos hm, if_neg hc, men_cf]
  norm_num +decide [dictGet, List.filterMap, List.filter, List.sum]
  split_ifs <;> ring

/-- Collapsed weighted-score formula for `meniscus`, case C. -/
theorem evalC_men (b : Bundle)
    (hm : ¬ b.mechanical_strength ≥ 70) (hc : b.cell_migration ≥ 65) :
    (evaluate_tissue_compatibility b meniscus).1 =
      (if b.mechanical_strength < 40 ∨ b.cell_migration < 45 then (1:ℚ)/2 else 1) *
      ((2 * scoreMinOpt b.stress meniscus.stress
        + 2 * scoreMinOpt b.strain meniscus.strain
        + scoreMinOpt b.flow_rate meniscus.flow_rate
        + scoreMinOpt b.shear_stress meniscus.shear_stress
        + 2 * scoreMech b.mechanical_strength
        + 2 * scoreCellMigr b.cell_migration) / 10) := by
  simp only [evaluate_tissue_compatibility, bundleScores, augmentedCriticalFactors,
    if_neg hm, if_pos hc, men_cf]
  norm_num +decide [dictGet, List.filterMap, List.filter, List.sum]
  split_ifs <;> ring

/-- Collapsed weighted-score formula for `bone_tissue`, case A. -/
theorem evalA_bone (b : Bundle)
    (hm : ¬ b.mechanical_strength ≥ 70) (hc : ¬ b.cell_migration ≥ 65) :
    (evaluate_tissue_compatibility b bone_tissue).1 =
      (if b.mechanical_strength < 40 ∨ b.cell_migration < 45 then (1:ℚ)/2 else 1) *
      ((2 * scoreMinOpt b.stress bone_tissue.stress
        + 2 * scoreMinOpt b.strain bone_tissue.strain
        + scoreMinOpt b.flow_rate bone_tissue.flow_rate
        + scoreMinOpt b.shear_stress bone_tissue.shear_stress
        + 2 * scoreMech b.mechanical_strength
        + scoreCellMigr b.cell_migration) / 9) := by
  simp only [evaluate_tissue_compatibility, bundleScores, augmentedCriticalFactors,
    if_neg hm, if_neg hc, bone_cf]
  norm_num +decide [dictGet, List.filterMap, List.filter, List.sum]
  split_ifs <;> ring

/-- Collapsed weighted-score formula for `bone_tissue`, case B. -/
theorem evalB_bone (b : Bundle)
    (hm : b.mechanical_strength ≥ 70) (hc : ¬ b.cell_migration ≥ 65) :
    (evaluate_tissue_compatibility b bone_tissue).1 =
      (if b.mechanical_strength < 40 ∨ b.cell_migration < 45 then (1:ℚ)/2 else 1) *
      ((2 * scoreMinOpt b.stress bone_tissue.stress
        + 2 * scoreMinOpt b.strain bone_tissue.strain
        + scoreMinOpt b.flow_rate bone_tissue.flow_rate
        + scoreMinOpt b.shear_stress bone_tissue.shear_stress
        + 4 * scoreMech b.mechanical_strength
        + scoreCellMigr b.cell_migration) / 10) := by
  simp only [evaluate_tissue_compatibility, bundleScores, augmentedCriticalFactors,
    if_pos hm, if_neg hc, bone_cf]
  norm_num +decide [dictGet, List.filterMap, List.filter, List.sum]
  split_ifs <;> ring

/-- Collapsed weighted-score formula for `bone_tissue`, case C. -/
theorem evalC_bone (b : Bundle)
    (hm : ¬ b.mechanical_strength ≥ 70) (hc : b.cell_migration ≥ 65) :
    (evaluate_tissue_compatibility b bone_tissue).1 =
      (if b.mechanical_strength < 40 ∨ b.cell_migration < 45 then (1:ℚ)/2 else 1) *
      ((2 * scoreMinOpt b.stress bone_tissue.stress
        + 2 * scoreMinOpt b.strain bone_tissue.strain
        + scoreMinOpt b.flow_rate bone_tissue.flow_rate
        + scoreMinOpt b.shear_stress bone_tissue.shear_stress
        + 2 * scoreMech b.mechanical_strength
        + 2 * scoreCellMigr b.cell_migration) / 10) := by
  simp only [evaluate_tissue_compatibility, bundleScores, augmentedCriticalFactors,
    if_neg hm, if_pos hc, bone_cf]
  norm_num +decide [dictGet, List.filterMap, List.filter, List.sum]
  split_ifs <;> ring

/-- Collapsed weighted-score formula for `skin`, case A. -/
theorem evalA_skin (b : Bundle)
    (hm : ¬ b.mechanical_strength ≥ 70) (hc : ¬ b.cell_migration ≥ 65) :
    (evaluate_tissue_compatibility b skin).1 =
      (if b.mechanical_strength < 40 ∨ b.cell_migration < 45 then (1:ℚ)/2 else 1) *
      ((scoreMinOpt b.stress skin.stress
        + 2 * scoreMinOpt b.strain skin.strain
        + 2 * scoreMinOpt b.flow_rate skin.flow_rate
        + scoreMinOpt b.shear_stress skin.shear_stress
        + scoreMech b.mechanical_strength
        + 2 * scoreCellMigr b.cell_migration) / 9) := by
  simp only [evaluate_tissue_compatibility, bundleScores, augmentedCriticalFactors,
    if_neg hm, if_neg hc, skin_cf]
  norm_num +decide [dictGet, List.filterMap, List.filter, List.sum]
  split_ifs <;> ring

/-- Collapsed weighted-score formula for `skin`, case B. -/
theorem evalB_skin (b : Bundle)
    (hm : b.mechanical_strength ≥ 70) (hc : ¬ b.cell_migration ≥ 65) :
    (evaluate_tissue_compatibility b skin).1 =
      (if b.mechanical_strength < 40 ∨ b.cell_migration < 45 then (1:ℚ)/2 else 1) *
      ((scoreMinOpt b.stress skin.stress
        + 2 * scoreMinOpt b.strain skin.strain
        + 2 * scoreMinOpt b.flow_rate skin.flow_rate
        + scoreMinOpt b.shear_stress skin.shear_stress
        + 2 * scoreMech b.mechanical_strength
        + 2 * scoreCellMigr b.cell_migration) / 10) := by
  simp only [evaluate_tissue_compatibility, bundleScores, augmentedCriticalFactors,
    if_pos hm, if_neg hc, skin_cf]
  norm_num +decide [dictGet, List.filterMap, List.filter, List.sum]
  split_ifs <;> ring

/-- Collapsed weighted-score formula for `skin`, case C. -/
theorem evalC_skin (b : Bundle)
    (hm : ¬ b.mechanical_strength ≥ 70) (hc : b.cell_migration ≥ 65) :
    (evaluate_tissue_compatibility b skin).1 =
      (if b.mechanical_strength < 40 ∨ b.cell_migration < 45 then (1:ℚ)/2 else 1) *
      ((scoreMinOpt b.stress skin.stress
        + 2 * scoreMinOpt b.strain skin.strain
        + 2 * scoreMinOpt b.flow_rate skin.flow_rate
        + scoreMinOpt b.shear_stress skin.shear_stress
        + scoreMech b.mechanical_strength
        + 4 * scoreCellMigr b.cell_migration) / 10) := by
  simp only [evaluate_tissue_compatibility, bundleScores, augmentedCriticalFactors,
    if_neg hm, if_pos hc, skin_cf]
  norm_num +decide [dictGet, List.filterMap, List.filter, List.sum]
  split_ifs <;> ring

/-- Collapsed weighted-score formula for `blood_vessel`, case A. -/
theorem evalA_bv (b : Bundle)
    (hm : ¬ b.mechanical_strength ≥ 70) (hc : ¬ b.cell_migration ≥ 65) :
    (evaluate_tissue_compatibility b blood_vessel).1 =
      (if b.mechanical_strength < 40 ∨ b.cell_migration < 45 then (1:ℚ)/2 else 1) *
      ((scoreMinOpt b.stress blood_vessel.stress
        + scoreMinOpt b.strain blood_vessel.strain
        + 2 * scoreMinOpt b.flow_rate blood_vessel.flow_rate
        + 2 * scoreMinOpt b.shear_stress blood_vessel.shear_stress
        + scoreMech b.mechanical_strength
        + 2 * scoreCellMigr b.cell_migration) / 9) := by
  simp only [evaluate_tissue_compatibility, bundleScores, augmentedCriticalFactors,
    if_neg hm, if_neg hc, bv_cf]
  norm_num +decide [dictGet, List.filterMap, List.filter, List.sum]
  split_ifs <;> ring

/-- Collapsed weighted-score formula for `blood_vessel`, case B. -/
theorem evalB_bv (b : Bundle)
    (hm : b.mechanical_strength ≥ 70) (hc : ¬ b.cell_migration ≥ 65) :
    (evaluate_tissue_compatibility b blood_vessel).1 =
      (if b.mechanical_strength < 40 ∨ b.cell_migration < 45 then (1:ℚ)/2 else 1) *
      ((scoreMinOpt b.stress blood_vessel.stress
        + scoreMinOpt b.strain blood_vessel.strain
        + 2 * scoreMinOpt b.flow_rate blood_vessel.flow_rate
        + 2 * scoreMinOpt b.shear_stress blood_vessel.shear_stress
        + 2 * scoreMech b.mechanical_strength
        + 2 * scoreCellMigr b.cell_migration) / 10) := by
  simp only [evaluate_tissue_compatibility, bundleScores, augmentedCriticalFactors,
    if_pos hm, if_neg hc, bv_cf]
  norm_num +decide [dictGet, List.filterMap, List.filter, List.sum]
  split_ifs <;> ring

/-- Collapsed weighted-score formula for `blood_vessel`, case C. -/
theorem evalC_bv (b : Bundle)
    (hm : ¬ b.mechanical_strength ≥ 70) (hc : b.cell_migration ≥ 65) :
    (evaluate_tissue_compatibility b blood_vessel).1 =
      (if b.mechanical_strength < 40 ∨ b.cell_migration < 45 then (1:ℚ)/2 else 1) *
      ((scoreMinOpt b.stress blood_vessel.stress
        + scoreMinOpt b.strain blood_vessel.strain
        + 2 * scoreMinOpt b.flow_rate blood_vessel.flow_rate
        + 2 * scoreMinOpt b.shear_stress blood_vessel.shear_stress
        + scoreMech b.mechanical_strength
        + 4 * scoreCellMigr b.cell_migration) / 10) := by
  simp only [evaluate_tissue_compatibility, bundleScores, augmentedCriticalFactors,
    if_neg hm, if_pos hc, bv_cf]
  norm_num +decide [dictGet, List.filterMap, List.filter, List.sum]
  split_ifs <;> ring

end Collapse
end Scartix

namespace Scartix
section Facts

/-- In any bundle of the table domain, mechanical strength 70 or more forces
the porosity to at most 60, where cell migration stays below 65. -/
theorem bundle_mc (p : ℤ) (h1 : (30:ℤ) ≤ p) (h2 : p ≤ 90)
    (hm : (bundleOf p).mechanical_strength ≥ 70) :
    ¬ (bundleOf p).cell_migration ≥ 65 := by
  rw [mech_eq] at hm
  have hp60 : p ≤ 60 := by exact_mod_cast (by linarith : (p : ℚ) ≤ 60)
  intro hcon
  rw [cm_low p h1 hp60] at hcon
  have hq : ((p : ℚ)) ≤ 60 := by exact_mod_cast hp60
  linarith

/-- In any bundle of the table domain, mechanical strength 80 or more forces
the porosity to at most 50, where cell migration stays below the penalty
threshold 45. -/
theorem bundle_m80 (p : ℤ) (h1 : (30:ℤ) ≤ p) (h2 : p ≤ 90)
    (hm : (bundleOf p).mechanical_strength ≥ 80) :
    (bundleOf p).cell_migration < 45 := by
  rw [mech_eq] at hm
  have hp50 : p ≤ 50 := by exact_mod_cast (by linarith : (p : ℚ) ≤ 50)
  rw [cm_low p h1 (by omega)]
  have hq : ((p : ℚ)) ≤ 50 := by exact_mod_cast hp50
  linarith

/-- Strain means never exceed the anchor-30 value. -/
theorem bundle_strain_le (p : ℤ) (h1 : (30:ℤ) ≤ p) (h2 : p ≤ 90) :
    (bundleOf p).strain ≤ 8058.8783 := by
  by_cases h : p ≤ 60
  · rw [strain_low p h]
    have hq : (30 : ℚ) ≤ (p : ℚ) := by exact_mod_cast h1
    norm_num
    linarith
  · rw [strain_high p h]
    have hq : (60 : ℚ) ≤ (p : ℚ) := by
      exact_mod_cast (le_of_lt (not_le.mp h))
    norm_num
    linarith

/-- Cell migration 65 or more forces porosity at least 68, where the shear
stress mean is at most `560/3`. -/
theorem bundle_cm_shear (p : ℤ) (h1 : (30:ℤ) ≤ p) (h2 : p ≤ 90)
    (hc : (bundleOf p).cell_migration ≥ 65) :
    (bundleOf p).shear_stress ≤ 560 / 3 := by
  by_cases h : p ≤ 60
  · exfalso
    rw [cm_low p h1 h] at hc
    have hq : ((p : ℚ)) ≤ 60 := by exact_mod_cast h
    linarith
  · rw [cm_high p h h2] at hc
    have hq67 : (67 : ℚ) < (p : ℚ) := by linarith
    have hz67 : (67 : ℤ) < p := by exact_mod_cast hq67
    have hq68 : (68 : ℚ) ≤ (p : ℚ) := by exact_mod_cast (by omega : (68:ℤ) ≤ p)
    rw [shear_high p h]
    linarith

/-- The skin strain score is small: strain never reaches the skin minimum. -/
theorem skin_strain_score (v : ℚ) (hv : v ≤ 8058.8783) :
    scoreMinOpt v skin.strain ≤ 41 / 100 := by
  unfold scoreMinOpt
  split_ifs with ha hb
  · norm_num [skin] at ha; norm_num at hv; linarith
  · norm_num [skin] at hb; norm_num at hv; linarith
  · refine max_le (by norm_num) ?_
    norm_num [skin] at hb ⊢
    norm_num at hv
    linarith

/-- The blood-vessel shear score is small whenever shear stress is at most
`560/3` (below the 200 minimum). -/
theorem bv_shear_score (v : ℚ) (hv : v ≤ 560 / 3) :
    scoreMinOpt v blood_vessel.shear_stress ≤ 7 / 15 := by
  unfold scoreMinOpt
  split_ifs with ha hb
  · norm_num [blood_vessel] at ha; linarith
  · norm_num [blood_vessel] at hb; linarith
  · refine max_le (by norm_num) ?_
    norm_num [blood_vessel] at hb ⊢
    linarith

end Facts
end Scartix

namespace Scartix
section TissueBounds

/-- The final compatibility score for `articular_cartilage` lies in `[0, 1]`
for any bundle satisfying the two porosity-derived implications. -/
theorem tissue_bound_art (b : Bundle)
    (hmc : b.mechanical_strength ≥ 70 → ¬ b.cell_migration ≥ 65)
    (hm80 : b.mechanical_strength ≥ 80 → b.cell_migration < 45) :
    0 ≤ (evaluate_tissue_compatibility b articular_cartilage).1 ∧
      (evaluate_tissue_compatibility b articular_cartilage).1 ≤ 1 := by
  have h_stress_0 := scoreMinOpt_nonneg b.stress articular_cartilage.stress (by norm_num [articular_cartilage]) (by norm_num [articular_cartilage])
  have h_stress_1 := scoreMinOpt_le_one b.stress articular_cartilage.stress (by norm_num [articular_cartilage]) (by norm_num [articular_cartilage])
  have h_strain_0 := scoreMinOpt_nonneg b.strain articular_cartilage.strain (by norm_num [articular_cartilage]) (by norm_num [articular_cartilage])
  have h_strain_1 := scoreMinOpt_le_one b.strain articular_cartilage.strain (by norm_num [articular_cartilage]) (by norm_num [articular_cartilage])
  have h_flow_rate_0 := scoreMinOpt_nonneg b.flow_rate articular_cartilage.flow_rate (by norm_num [articular_cartilage]) (by norm_num [articular_cartilage])
  have h_flow_rate_1 := scoreMinOpt_le_one b.flow_rate articular_cartilage.flow_rate (by norm_num [articular_cartilage]) (by norm_num [articular_cartilage])
  have h_shear_stress_0 := scoreMinOpt_nonneg b.shear_stress articular_cartilage.shear_stress (by norm_num [articular_cartilage]) (by norm_num [articular_cartilage])
  have h_shear_stress_1 := scoreMinOpt_le_one b.shear_stress articular_cartilage.shear_stress (by norm_num [articular_cartilage]) (by norm_num [articular_cartilage])
  have hme := scoreMech_mem b.mechanical_strength
  have hcm := scoreCellMigr_mem b.cell_migration
  by_cases hm : b.mechanical_strength ≥ 70
  · have hc := hmc hm
    rw [evalB_art b hm hc]
    by_cases h80 : b.mechanical_strength ≥ 80
    · have hpen : b.cell_migration < 45 := hm80 h80
      split_ifs with hp
      · constructor <;> linarith
      · exact absurd (Or.inr hpen) hp
    · have hml := scoreMech_lt80 b.mechanical_strength h80
      split_ifs <;> constructor <;> linarith
  · by_cases hc : b.cell_migration ≥ 65
    · rw [evalC_art b hm hc]
      split_ifs <;> constructor <;> linarith
    · rw [evalA_art b hm hc]
      split_ifs <;> constructor <;> linarith

/-- The final compatibility score for `meniscus` lies in `[0, 1]`
for any bundle satisfying the two porosity-derived implications. -/
theorem tissue_bound_men (b : Bundle)
    (hmc : b.mechanical_strength ≥ 70 → ¬ b.cell_migration ≥ 65)
    (hm80 : b.mechanical_strength ≥ 80 → b.cell_migration < 45) :
    0 ≤ (evaluate_tissue_compatibility b meniscus).1 ∧
      (evaluate_tissue_compatibility b meniscus).1 ≤ 1 := by
  have h_stress_0 := scoreMinOpt_nonneg b.stress meniscus.stress (by norm_num [meniscus]) (by norm_num [meniscus])
  have h_stress_1 := scoreMinOpt_le_one b.stress meniscus.stress (by norm_num [meniscus]) (by norm_num [meniscus])
  have h_strain_0 := scoreMinOpt_nonneg b.strain meniscus.strain (by norm_num [meniscus]) (by norm_num [meniscus])
  have h_strain_1 := scoreMinOpt_le_one b.strain meniscus.strain (by norm_num [meniscus]) (by norm_num [meniscus])
  have h_flow_rate_0 := scoreMinOpt_nonneg b.flow_rate meniscus.flow_rate (by norm_num [meniscus]) (by norm_num [meniscus])
  have h_flow_rate_1 := scoreMinOpt_le_one b.flow_rate meniscus.flow_rate (by norm_num [meniscus]) (by norm_num [meniscus])
  have h_shear_stress_0 := scoreMinOpt_nonneg b.shear_stress meniscus.shear_stress (by norm_num [meniscus]) (by norm_num [meniscus])
  have h_shear_stress_1 := scoreMinOpt_le_one b.shear_stress meniscus.shear_stress (by norm_num [meniscus]) (by norm_num [meniscus])
  have hme := scoreMech_mem b.mechanical_strength
  have hcm := scoreCellMigr_mem b.cell_migration
  by_cases hm : b.mechanical_strength ≥ 70
  · have hc := hmc hm
    rw [evalB_men b hm hc]
    by_cases h80 : b.mechanical_strength ≥ 80
    · have hpen : b.cell_migration < 45 := hm80 h80
      split_ifs with hp
      · constructor <;> linarith
      · exact absurd (Or.inr hpen) hp
    · have hml := scoreMech_lt80 b.mechanical_strength h80
      split_ifs <;> constructor <;> linarith
  · by_cases hc : b.cell_migration ≥ 65
    · rw [evalC_men b hm hc]
      split_ifs <;> constructor <;> linarith
    · rw [evalA_men b hm hc]
      split_ifs <;> constructor <;> linarith

/-- The final compatibility score for `bone_tissue` lies in `[0, 1]`
for any bundle satisfying the two porosity-derived implications. -/
theorem tissue_bound_bone (b : Bundle)
    (hmc : b.mechanical_strength ≥ 70 → ¬ b.cell_migration ≥ 65)
    (hm80 : b.mechanical_strength ≥ 80 → b.cell_migration < 45) :
    0 ≤ (evaluate_tissue_compatibility b bone_tissue).1 ∧
      (evaluate_tissue_compatibility b bone_tissue).1 ≤ 1 := by
  have h_stress_0 := scoreMinOpt_nonneg b.stress bone_tissue.stress (by norm_num [bone_tissue]) (by norm_num [bone_tissue])
  have h_stress_1 := scoreMinOpt_le_one b.stress bone_tissue.stress (by norm_num [bone_tissue]) (by norm_num [bone_tissue])
  have h_strain_0 := scoreMinOpt_nonneg b.strain bone_tissue.strain (by norm_num [bone_tissue]) (by norm_num [bone_tissue])
  have h_strain_1 := scoreMinOpt_le_one b.strain bone_tissue.strain (by norm_num [bone_tissue]) (by norm_num [bone_tissue])
  have h_flow_rate_0 := scoreMinOpt_nonneg b.flow_rate bone_tissue.flow_rate (by norm_num [bone_tissue]) (by norm_num [bone_tissue])
  have h_flow_rate_1 := scoreMinOpt_le_one b.flow_rate bone_tissue.flow_rate (by norm_num [bone_tissue]) (by norm_num [bone_tissue])
  have h_shear_stress_0 := scoreMinOpt_nonneg b.shear_stress bone_tissue.shear_stress (by norm_num [bone_tissue]) (by norm_num [bone_tissue])
  have h_shear_stress_1 := scoreMinOpt_le_one b.shear_stress bone_tissue.shear_stress (by norm_num [bone_tissue]) (by norm_num [bone_tissue])
  have hme := scoreMech_mem b.mechanical_strength
  have hcm := scoreCellMigr_mem b.cell_migration
  by_cases hm : b.mechanical_strength ≥ 70
  · have hc := hmc hm
    rw [evalB_bone b hm hc]
    by_cases h80 : b.mechanical_strength ≥ 80
    · have hpen : b.cell_migration < 45 := hm80 h80
      split_ifs with hp
      · constructor <;> linarith
      · exact absurd (Or.inr hpen) hp
    · have hml := scoreMech_lt80 b.mechanical_strength h80
      split_ifs <;> constructor <;> linarith
  · by_cases hc : b.cell_migration ≥ 65
    · rw [evalC_bone b hm hc]
      split_ifs <;> constructor <;> linarith
    · rw [evalA_bone b hm hc]
      split_ifs <;> constructor <;> linarith

/-- The final compatibility score for `skin` lies in `[0, 1]` for any
bundle whose strain stays below the skin minimum band. -/
theorem tissue_bound_skin (b : Bundle)
    (hmc : b.mechanical_strength ≥ 70 → ¬ b.cell_migration ≥ 65)
    (hstr : b.strain ≤ 8058.8783) :
    0 ≤ (evaluate_tissue_compatibility b skin).1 ∧
      (evaluate_tissue_compatibility b skin).1 ≤ 1 := by
  have h_stress_0 := scoreMinOpt_nonneg b.stress skin.stress (by norm_num [skin]) (by norm_num [skin])
  have h_stress_1 := scoreMinOpt_le_one b.stress skin.stress (by norm_num [skin]) (by norm_num [skin])
  have h_strain_0 := scoreMinOpt_nonneg b.strain skin.strain (by norm_num [skin]) (by norm_num [skin])
  have h_strain_1 := scoreMinOpt_le_one b.strain skin.strain (by norm_num [skin]) (by norm_num [skin])
  have h_flow_rate_0 := scoreMinOpt_nonneg b.flow_rate skin.flow_rate (by norm_num [skin]) (by norm_num [skin])
  have h_flow_rate_1 := scoreMinOpt_le_one b.flow_rate skin.flow_rate (by norm_num [skin]) (by norm_num [skin])
  have h_shear_stress_0 := scoreMinOpt_nonneg b.shear_stress skin.shear_stress (by norm_num [skin]) (by norm_num [skin])
  have h_shear_stress_1 := scoreMinOpt_le_one b.shear_stress skin.shear_stress (by norm_num [skin]) (by norm_num [skin])
  have hme := scoreMech_mem b.mechanical_strength
  have hcm := scoreCellMigr_mem b.cell_migration
  have hss := skin_strain_score b.strain hstr
  by_cases hm : b.mechanical_strength ≥ 70
  · have hc := hmc hm
    rw [evalB_skin b hm hc]
    split_ifs <;> constructor <;> linarith
  · by_cases hc : b.cell_migration ≥ 65
    · rw [evalC_skin b hm hc]
      split_ifs <;> constructor <;> linarith
    · rw [evalA_skin b hm hc]
      split_ifs <;> constructor <;> linarith

/-- The final compatibility score for `blood_vessel` lies in `[0, 1]`
for any bundle where high cell migration comes with low shear stress. -/
theorem tissue_bound_bv (b : Bundle)
    (hmc : b.mechanical_strength ≥ 70 → ¬ b.cell_migration ≥ 65)
    (hshear : b.cell_migration ≥ 65 → b.shear_stress ≤ 560 / 3) :
    0 ≤ (evaluate_tissue_compatibility b blood_vessel).1 ∧
      (evaluate_tissue_compatibility b blood_vessel).1 ≤ 1 := by
  have h_stress_0 := scoreMinOpt_nonneg b.stress blood_vessel.stress (by norm_num [blood_vessel]) (by norm_num [blood_vessel])
  have h_stress_1 := scoreMinOpt_le_one b.stress blood_vessel.stress (by norm_num [blood_vessel]) (by norm_num [blood_vessel])
  have h_strain_0 := scoreMinOpt_nonneg b.strain blood_vessel.strain (by norm_num [blood_vessel]) (by norm_num [blood_vessel])
  have h_strain_1 := scoreMinOpt_le_one b.strain blood_vessel.strain (by norm_num [blood_vessel]) (by norm_num [blood_vessel])
  have h_flow_rate_0 := scoreMinOpt_nonneg b.flow_rate blood_vessel.flow_rate (by norm_num [blood_vessel]) (by norm_num [blood_vessel])
  have h_flow_rate_1 := scoreMinOpt_le_one b.flow_rate blood_vessel.flow_rate (by norm_num [blood_vessel]) (by norm_num [blood_vessel])
  have h_shear_stress_0 := scoreMinOpt_nonneg b.shear_stress blood_vessel.shear_stress (by norm_num [blood_vessel]) (by norm_num [blood_vessel])
  have h_shear_stress_1 := scoreMinOpt_le_one b.shear_stress blood_vessel.shear_stress (by norm_num [blood_vessel]) (by norm_num [blood_vessel])
  have hme := scoreMech_mem b.mechanical_strength
  have hcm := scoreCellMigr_mem b.cell_migration
  by_cases hm : b.mechanical_strength ≥ 70
  · have hc := hmc hm
    rw [evalB_bv b hm hc]
    split_ifs <;> constructor <;> linarith
  · by_cases hc : b.cell_migration ≥ 65
    · have hbs := bv_shear_score b.shear_stress (hshear hc)
      rw [evalC_bv b hm hc]
      split_ifs <;> constructor <;> linarith
    · rw [evalA_bv b hm hc]
      split_ifs <;> constructor <;> linarith

end TissueBounds
end Scartix

namespace Scartix
section Lookup

/-- Scanning the mapped porosity range finds the entry of an in-window key. -/
theorem table_find (n : ℤ) : ∀ k s : ℕ, (s : ℤ) ≤ n - 30 → n - 30 < (s : ℤ) + (k : ℤ) →
    ((List.range' s k).map (fun (i : ℕ) => ((30 + (i : ℤ)), paramsAt (30 + (i : ℤ))))).find?
      (fun kv => decide ((kv.1 : ℚ) = (n : ℚ))) = some (n, paramsAt n) := by
  intro k
  induction k with
  | zero => intro s h1 h2; exfalso; omega
  | succ k ih =>
    intro s h1 h2
    rw [List.range'_succ, List.map_cons]
    by_cases hs : (s : ℤ) = n - 30
    · have hk : (30 + (s : ℤ)) = n := by omega
      have hq : (((30 + (s : ℤ)) : ℤ) : ℚ) = (n : ℚ) := by rw [hk]
      rw [List.find?_cons_of_pos _ (by simpa using hq)]
      rw [hk]
    · have hq : ¬ (((30 + (s : ℤ)) : ℤ) : ℚ) = (n : ℚ) := by
        intro hcon
        have hint : (30 + (s : ℤ)) = n := by exact_mod_cast hcon
        omega
      rw [List.find?_cons_of_neg _ (by simpa using hq)]
      exact ih (s + 1) (by omega) (by push_cast; omega)

/-- The table lookup succeeds for every integer porosity in `[30, 90]` and
returns the interpolated entry. -/
theorem lookupParams_int (n : ℤ) (h1 : (30:ℤ) ≤ n) (h2 : n ≤ 90) :
    lookupParams (n : ℚ) = some (paramsAt n) := by
  unfold lookupParams STATISTICAL_PARAMS generate_complete_params
  rw [List.range_eq_range']
  rw [table_find n 61 0 (by omega) (by omega)]
  rfl

/-- The table lookup fails for any query rational that is below 30, above
90, or not an integer. -/
theorem lookupParams_none (q : ℚ) (h : q < 30 ∨ 90 < q ∨ q.den ≠ 1) :
    lookupParams q = none := by
  unfold lookupParams
  have hfind : STATISTICAL_PARAMS.find? (fun kv => decide ((kv.1 : ℚ) = q)) = none := by
    rw [List.find?_eq_none]
    rintro ⟨k, v⟩ hkv
    unfold STATISTICAL_PARAMS generate_complete_params at hkv
    simp only [List.mem_map, List.mem_range] at hkv
    obtain ⟨i, hi, hpair⟩ := hkv
    have hk : (30 + (i : ℤ)) = k := by
      have := congrArg Prod.fst hpair
      simpa using this
    simp only [decide_eq_true_eq]
    intro hcon
    rcases h with h | h | h
    · have hge : (30 : ℚ) ≤ (k : ℚ) := by exact_mod_cast (by omega : (30:ℤ) ≤ k)
      rw [hcon] at hge
      linarith
    · have hle : ((k : ℚ)) ≤ 90 := by exact_mod_cast (by omega : k ≤ (90:ℤ))
      rw [hcon] at hle
      linarith
    · exact h (hcon ▸ Rat.den_intCast k)
  rw [hfind]
  rfl

/-- `get_values` on an in-domain integer porosity returns exactly the
closed-form bundle. -/
theorem get_values_eq (n : ℤ) (h1 : (30:ℤ) ≤ n) (h2 : n ≤ 90) :
    get_values (n : ℚ) = Except.ok (bundleOf n) := by
  unfold get_values
  rw [lookupParams_int n h1 h2]
  rfl

end Lookup
end Scartix

namespace Scartix
section ClaimsA

/-- Cell migration of the bundle is monotone in porosity over the table
domain. -/
theorem cm_mono (p q : ℤ) (hp : (30:ℤ) ≤ p) (hpq : p ≤ q) (hq : q ≤ 90) :
    (bundleOf p).cell_migration ≤ (bundleOf q).cell_migration := by
  have hpq' : ((p : ℚ)) ≤ (q : ℚ) := by exact_mod_cast hpq
  by_cases h1 : p ≤ 60 <;> by_cases h2 : q ≤ 60
  · rw [cm_low p hp h1, cm_low q (by omega) h2]
    linarith
  · rw [cm_low p hp h1, cm_high q h2 hq]
    have hc1 : ((p : ℚ)) ≤ 60 := by exact_mod_cast h1
    have hc2 : (60 : ℚ) ≤ (q : ℚ) := by exact_mod_cast (by omega : (60:ℤ) ≤ q)
    linarith
  · omega
  · rw [cm_high p h1 (by omega), cm_high q h2 hq]
    linarith

/-- C1: for every property bundle produced by `get_values` at an in-domain
porosity and every tissue profile of the fixed catalog, the final
compatibility score returned by `evaluate_tissue_compatibility` lies in
`[0, 1]` after penalty application. -/
theorem scartix_C1 : ∀ n ∈ Finset.Icc (30:ℤ) 90, ∀ tp ∈ TISSUE_PROPERTIES,
    ∀ b : Bundle, get_values (n : ℚ) = Except.ok b →
    0 ≤ (evaluate_tissue_compatibility b tp.2).1 ∧
      (evaluate_tissue_compatibility b tp.2).1 ≤ 1 := by
  intro n hn tp htp b hb
  rw [Finset.mem_Icc] at hn
  rw [get_values_eq n hn.1 hn.2] at hb
  injection hb with hbe
  subst hbe
  simp only [TISSUE_PROPERTIES, List.mem_cons, List.not_mem_nil, or_false] at htp
  rcases htp with rfl | rfl | rfl | rfl | rfl
  · exact tissue_bound_art _ (bundle_mc n hn.1 hn.2) (bundle_m80 n hn.1 hn.2)
  · exact tissue_bound_men _ (bundle_mc n hn.1 hn.2) (bundle_m80 n hn.1 hn.2)
  · exact tissue_bound_bone _ (bundle_mc n hn.1 hn.2) (bundle_m80 n hn.1 hn.2)
  · exact tissue_bound_skin _ (bundle_mc n hn.1 hn.2) (bundle_strain_le n hn.1 hn.2)
  · exact tissue_bound_bv _ (bundle_mc n hn.1 hn.2) (bundle_cm_shear n hn.1 hn.2)

/-- Witness for C1 at porosity 60 against the articular-cartilage profile. -/
theorem scartix_C1_witness :
    0 ≤ (evaluate_tissue_compatibility (bundleOf 60) articular_cartilage).1 ∧
      (evaluate_tissue_compatibility (bundleOf 60) articular_cartilage).1 ≤ 1 :=
  scartix_C1 60 (Finset.mem_Icc.mpr (by omega))
    ("articular_cartilage", articular_cartilage) (by simp [TISSUE_PROPERTIES])
    (bundleOf 60) (get_values_eq 60 (by omega) (by omega))

/-- C7: every integer porosity in `[30, 90]` yields a complete bundle with no
error, and any out-of-domain or non-integer porosity yields exactly the
single typed error. -/
theorem scartix_C7 :
    (∀ n : ℤ, (30:ℤ) ≤ n → n ≤ 90 → ∃ b : Bundle, get_values (n : ℚ) = Except.ok b) ∧
    (∀ q : ℚ, (q < 30 ∨ 90 < q ∨ q.den ≠ 1) →
      get_values q = Except.error SimError.invalidPorosity) := by
  constructor
  · intro n h1 h2
    exact ⟨bundleOf n, get_values_eq n h1 h2⟩
  · intro q hq
    unfold get_values
    rw [lookupParams_none q hq]

/-- Witness for C7: success at porosity 45, typed error at porosity 100. -/
theorem scartix_C7_witness :
    (∃ b : Bundle, get_values ((45:ℤ) : ℚ) = Except.ok b) ∧
    get_values (100 : ℚ) = Except.error SimError.invalidPorosity :=
  ⟨scartix_C7.1 45 (by omega) (by omega),
   scartix_C7.2 100 (Or.inr (Or.inl (by norm_num)))⟩

/-- C9: for a fixed in-domain porosity the scored outputs of `get_values`
are deterministic — any two calls return identical bundles, and the bundle
is a function of the porosity alone. -/
theorem scartix_C9 : ∀ n ∈ Finset.Icc (30:ℤ) 90, ∀ b1 b2 : Bundle,
    get_values (n : ℚ) = Except.ok b1 → get_values (n : ℚ) = Except.ok b2 →
    b1 = b2 ∧ b1 = bundleOf n := by
  intro n hn b1 b2 h1 h2
  rw [Finset.mem_Icc] at hn
  rw [get_values_eq n hn.1 hn.2] at h1 h2
  injection h1 with e1
  injection h2 with e2
  exact ⟨e1 ▸ e2 ▸ rfl, e1.symm⟩

/-- Witness for C9 at porosity 60. -/
theorem scartix_C9_witness :
    bundleOf 60 = bundleOf 60 ∧ bundleOf 60 = bundleOf 60 :=
  scartix_C9 60 (Finset.mem_Icc.mpr (by omega)) (bundleOf 60) (bundleOf 60)
    (get_values_eq 60 (by omega) (by omega)) (get_values_eq 60 (by omega) (by omega))

/-- C10: the cell-migration output of `get_values` is monotonically
non-decreasing in porosity, equal to 0 at porosity 30 and 100 at
porosity 90. -/
theorem scartix_C10 : ∀ p q : ℤ, (30:ℤ) ≤ p → p ≤ q → q ≤ 90 →
    ∀ bp bq : Bundle, get_values (p : ℚ) = Except.ok bp →
    get_values (q : ℚ) = Except.ok bq →
    bp.cell_migration ≤ bq.cell_migration ∧
    (p = 30 → bp.cell_migration = 0) ∧
    (q = 90 → bq.cell_migration = 100) := by
  intro p q hp hpq hq bp bq h1 h2
  rw [get_values_eq p hp (by omega)] at h1
  rw [get_values_eq q (by omega) hq] at h2
  injection h1 with e1
  injection h2 with e2
  subst e1
  subst e2
  refine ⟨cm_mono p q hp hpq hq, ?_, ?_⟩
  · intro h
    subst h
    rw [cm_low 30 (by omega) (by omega)]
    norm_num
  · intro h
    subst h
    rw [cm_high 90 (by omega) (by omega)]
    norm_num

/-- Witness for C10 at the endpoints 30 and 90. -/
theorem scartix_C10_witness :
    (bundleOf 30).cell_migration ≤ (bundleOf 90).cell_migration ∧
    ((30:ℤ) = 30 → (bundleOf 30).cell_migration = 0) ∧
    ((90:ℤ) = 90 → (bundleOf 90).cell_migration = 100) :=
  scartix_C10 30 90 (by omega) (by omega) (by omega) (bundleOf 30) (bundleOf 90)
    (get_values_eq 30 (by omega) (by omega)) (get_values_eq 90 (by omega) (by omega))

end ClaimsA
end Scartix

namespace Scartix
section ClaimsB

/-- C2: evaluating the porosity-60 bundle against the articular-cartilage
profile leaves the profile changed: the conditional critical-factor addition
is appended onto the very list stored in the profile, so after the call the
profile carries a duplicated `mechanical_strength` entry instead of its
original list.  This exhibits the in-place mutation of the shared catalog
that the claim denies. -/
theorem scartix_C2_bug :
    (evaluate_tissue_compatibility (bundleOf 60) articular_cartilage).2.2.critical_factors =
      [.stress, .shear_stress, .mechanical_strength, .mechanical_strength] ∧
    (evaluate_tissue_compatibility (bundleOf 60) articular_cartilage).2.2.critical_factors ≠
      articular_cartilage.critical_factors := by
  have hm : (bundleOf 60).mechanical_strength ≥ 70 := by
    rw [mech_eq]
    norm_num
  have hc : ¬ (bundleOf 60).cell_migration ≥ 65 := by
    rw [cm_low 60 (by omega) (by omega)]
    norm_num
  have hcf : (evaluate_tissue_compatibility (bundleOf 60) articular_cartilage).2.2.critical_factors =
      [.stress, .shear_stress, .mechanical_strength, .mechanical_strength] := by
    show augmentedCriticalFactors (bundleOf 60) articular_cartilage = _
    simp only [augmentedCriticalFactors, if_pos hm, if_neg hc, art_cf]
    rfl
  refine ⟨hcf, ?_⟩
  rw [hcf, art_cf]
  simp

/-- C3: the cell-migration value of the bundle equals the clamped weighted
formula recomputed from the porosity and the interpolated flow-rate and
shear-stress means, always lies in `[0, 100]`, and never coincides with the
interpolated table entry for cell migration (which the code ignores). -/
theorem scartix_C3 : ∀ n ∈ Finset.Icc (30:ℤ) 90, ∀ b : Bundle,
    get_values (n : ℚ) = Except.ok b →
    b.cell_migration =
      max (min (((((n : ℚ) - 30) / 60) * 0.4 +
        (((paramsAt n).flow_rate.mean - 0.3) / 0.4) * 0.35 +
        (1 - (((paramsAt n).shear_stress.mean - 150) / 150)) * 0.25) * 100) 100) 0 ∧
    0 ≤ b.cell_migration ∧ b.cell_migration ≤ 100 ∧
    b.cell_migration ≠ (paramsAt n).cell_migration.mean := by
  intro n hn b hb
  rw [Finset.mem_Icc] at hn
  rw [get_values_eq n hn.1 hn.2] at hb
  injection hb with hbe
  subst hbe
  refine ⟨rfl, (clamp_mem _).1, (clamp_mem _).2, ?_⟩
  by_cases h : n ≤ 60
  · rw [cm_low n hn.1 h, paramsAt_low n h]
    have hc1 : ((n : ℚ)) ≤ 60 := by exact_mod_cast h
    norm_num [interpParams, interpStat, keyPoint30, keyPoint60]
    intro hcon
    linarith
  · rw [cm_high n h hn.2, paramsAt_high n h]
    norm_num [interpParams, interpStat, keyPoint60, keyPoint90]
    intro hcon
    have hq : ((n : ℚ)) * 43 = 3690 := by linarith
    have hz : n * 43 = 3690 := by exact_mod_cast hq
    omega

/-- Witness for C3 at porosity 30 (where the clamped score evaluates to 0). -/
theorem scartix_C3_witness :
    (bundleOf 30).cell_migration =
      max (min ((((((30:ℤ) : ℚ) - 30) / 60) * 0.4 +
        (((paramsAt 30).flow_rate.mean - 0.3) / 0.4) * 0.35 +
        (1 - (((paramsAt 30).shear_stress.mean - 150) / 150)) * 0.25) * 100) 100) 0 ∧
    0 ≤ (bundleOf 30).cell_migration ∧ (bundleOf 30).cell_migration ≤ 100 ∧
    (bundleOf 30).cell_migration ≠ (paramsAt 30).cell_migration.mean :=
  scartix_C3 30 (Finset.mem_Icc.mpr (by omega)) (bundleOf 30)
    (get_values_eq 30 (by omega) (by omega))

/-- C4: the interpolated table reproduces the anchor entries exactly at the
anchor porosities 30, 60 and 90, and at porosity 60 the `(30, 60)` branch
with factor 1 agrees with the `(60, 90)` branch with factor 0, both landing
on the anchor-60 entry for every property. -/
theorem scartix_C4 :
    lookupParams ((30:ℤ) : ℚ) = some keyPoint30 ∧
    lookupParams ((60:ℤ) : ℚ) = some keyPoint60 ∧
    lookupParams ((90:ℤ) : ℚ) = some keyPoint90 ∧
    interpParams keyPoint30 keyPoint60 (((60 : ℚ) - 30) / (60 - 30)) = keyPoint60 ∧
    interpParams keyPoint60 keyPoint90 (((60 : ℚ) - 60) / (90 - 60)) = keyPoint60 := by
  have h30 : paramsAt 30 = keyPoint30 := by
    rw [paramsAt_low 30 (by omega)]
    norm_num [interpParams, interpStat, keyPoint30, keyPoint60,
      PropParams.mk.injEq, PropertyStat.mk.injEq]
  have h60 : paramsAt 60 = keyPoint60 := by
    rw [paramsAt_low 60 (by omega)]
    norm_num [interpParams, interpStat, keyPoint30, keyPoint60,
      PropParams.mk.injEq, PropertyStat.mk.injEq]
  have h90 : paramsAt 90 = keyPoint90 := by
    rw [paramsAt_high 90 (by omega)]
    norm_num [interpParams, interpStat, keyPoint60, keyPoint90,
      PropParams.mk.injEq, PropertyStat.mk.injEq]
  refine ⟨?_, ?_, ?_, ?_, ?_⟩
  · rw [lookupParams_int 30 (by omega) (by omega), h30]
  · rw [lookupParams_int 60 (by omega) (by omega), h60]
  · rw [lookupParams_int 90 (by omega) (by omega), h90]
  · norm_num [interpParams, interpStat, keyPoint30, keyPoint60,
      PropParams.mk.injEq, PropertyStat.mk.injEq]
  · norm_num [interpParams, interpStat, keyPoint60, keyPoint90,
      PropParams.mk.injEq, PropertyStat.mk.injEq]

end ClaimsB
end Scartix

namespace Scartix
section ClaimsC

/-- Mapping a constant function produces a replicated list. -/
theorem map_const_aux {α β : Type} (c : β) : ∀ l : List α,
    l.map (fun _ => c) = List.replicate l.length c := by
  intro l
  induction l with
  | nil => rfl
  | cons a t ih => simp [ih, List.replicate_succ]

/-- The `i`-th strain sample of the curve generator, in linspace form. -/
theorem linspace_getD (ps : PropParams) (i : ℕ) (hi : i < 100) :
    (generate_stress_strain_values ps).2.getD i 0 =
      (ps.strain.mean - 3 * ps.strain.std) + (i : ℚ) *
        ((ps.strain.mean + 3 * ps.strain.std) - (ps.strain.mean - 3 * ps.strain.std)) / 99 := by
  simp only [generate_stress_strain_values]
  rw [List.getD_eq_getElem?_getD, List.getElem?_map, List.getElem?_range hi]
  rfl

/-- Full characterization of both generated curves: a constant stress series
at the mean (no noise term exists), 100 evenly spaced strain samples across
`mean ± 3*std`, and a constant flow-rate series. -/
theorem curves_spec (ps : PropParams) :
    (generate_stress_strain_values ps).1 = List.replicate 100 ps.stress.mean ∧
    (generate_stress_strain_values ps).2.length = 100 ∧
    (generate_stress_strain_values ps).2.getD 0 0 = ps.strain.mean - 3 * ps.strain.std ∧
    (generate_stress_strain_values ps).2.getD 99 0 = ps.strain.mean + 3 * ps.strain.std ∧
    (∀ i : ℕ, i < 99 →
      (generate_stress_strain_values ps).2.getD (i + 1) 0 -
        (generate_stress_strain_values ps).2.getD i 0 = 6 * ps.strain.std / 99) ∧
    generate_flow_rate_values ps = List.replicate 100 ps.flow_rate.mean := by
  refine ⟨?_, ?_, ?_, ?_, ?_, rfl⟩
  · simp only [generate_stress_strain_values]
    rw [map_const_aux]
    simp
  · simp only [generate_stress_strain_values]
    simp
  · rw [linspace_getD ps 0 (by omega)]
    norm_num
  · rw [linspace_getD ps 99 (by omega)]
    push_cast
    ring
  · intro i hi
    rw [linspace_getD ps (i + 1) (by omega), linspace_getD ps i (by omega)]
    push_cast
    ring

/-- C5 counterexample: at porosity 60 the sampled stress series is exactly
the constant list of 100 copies of the stress mean — the generator contains
no noise term at all, and as a pure function of its parameters it yields the
same samples on every call with the same porosity, contradicting the claimed
"independent Gaussian noise with sigma 1" on the stress samples. -/
theorem scartix_C5_cx :
    (generate_stress_strain_values (paramsAt 60)).1 =
      List.replicate 100 (paramsAt 60).stress.mean :=
  (curves_spec (paramsAt 60)).1

/-- C5 (amended): for every in-domain porosity, the stress-strain curve has
100 strain samples evenly spaced across `mean ± 3*std` paired with a
constant stress series at the stress mean with no noise, and the flow-rate
curve is 100 copies of the flow-rate mean. -/
theorem scartix_C5_amended : ∀ n ∈ Finset.Icc (30:ℤ) 90,
    (generate_stress_strain_values (paramsAt n)).1 =
      List.replicate 100 (paramsAt n).stress.mean ∧
    (generate_stress_strain_values (paramsAt n)).2.length = 100 ∧
    (generate_stress_strain_values (paramsAt n)).2.getD 0 0 =
      (paramsAt n).strain.mean - 3 * (paramsAt n).strain.std ∧
    (generate_stress_strain_values (paramsAt n)).2.getD 99 0 =
      (paramsAt n).strain.mean + 3 * (paramsAt n).strain.std ∧
    (∀ i : ℕ, i < 99 →
      (generate_stress_strain_values (paramsAt n)).2.getD (i + 1) 0 -
        (generate_stress_strain_values (paramsAt n)).2.getD i 0 =
          6 * (paramsAt n).strain.std / 99) ∧
    generate_flow_rate_values (paramsAt n) =
      List.replicate 100 (paramsAt n).flow_rate.mean := by
  intro n _
  exact curves_spec (paramsAt n)

/-- Witness for the amended C5 at porosity 60. -/
theorem scartix_C5_witness :
    (generate_stress_strain_values (paramsAt 60)).1 =
      List.replicate 100 (paramsAt 60).stress.mean ∧
    (generate_stress_strain_values (paramsAt 60)).2.length = 100 ∧
    (generate_stress_strain_values (paramsAt 60)).2.getD 0 0 =
      (paramsAt 60).strain.mean - 3 * (paramsAt 60).strain.std ∧
    (generate_stress_strain_values (paramsAt 60)).2.getD 99 0 =
      (paramsAt 60).strain.mean + 3 * (paramsAt 60).strain.std ∧
    (∀ i : ℕ, i < 99 →
      (generate_stress_strain_values (paramsAt 60)).2.getD (i + 1) 0 -
        (generate_stress_strain_values (paramsAt 60)).2.getD i 0 =
          6 * (paramsAt 60).strain.std / 99) ∧
    generate_flow_rate_values (paramsAt 60) =
      List.replicate 100 (paramsAt 60).flow_rate.mean :=
  scartix_C5_amended 60 (Finset.mem_Icc.mpr (by omega))

/-- C6: the interpreter is total — for every bundle each property label is
exactly one of its defined labels, and values exactly at the band edges
(stress 1.5 or 3.0) classify as Optimal. -/
theorem scartix_C6 : ∀ v : Bundle,
    ((interpret_results v).stress = "Optimal - Within native cartilage range" ∨
      (interpret_results v).stress = "Suboptimal - Lower than native cartilage" ∨
      (interpret_results v).stress = "Suboptimal - Higher than native cartilage") ∧
    ((interpret_results v).strain = "Optimal - Within native cartilage range" ∨
      (interpret_results v).strain = "Suboptimal - Lower than native cartilage" ∨
      (interpret_results v).strain = "Suboptimal - Higher than native cartilage") ∧
    ((interpret_results v).flow_rate = "Optimal - Promotes nutrient transport" ∨
      (interpret_results v).flow_rate = "Suboptimal - May limit nutrient transport" ∨
      (interpret_results v).flow_rate = "Suboptimal - May cause excessive shear stress") ∧
    ((interpret_results v).shear_stress = "Optimal - Suitable for cell viability" ∨
      (interpret_results v).shear_stress = "Suboptimal - May not stimulate cells sufficiently" ∨
      (interpret_results v).shear_stress = "Suboptimal - May cause cell damage") ∧
    ((interpret_results v).mechanical_strength = "Excellent - Close to native cartilage" ∨
      (interpret_results v).mechanical_strength = "Good - Suitable for load-bearing" ∨
      (interpret_results v).mechanical_strength = "Fair - May need reinforcement") ∧
    ((interpret_results v).cell_migration = "Excellent - Optimal for cell infiltration" ∨
      (interpret_results v).cell_migration = "Good - Supports cell movement" ∨
      (interpret_results v).cell_migration = "Fair - Limited cell distribution" ∨
      (interpret_results v).cell_migration = "Poor - Significant barriers to cell movement") ∧
    ((v.stress = 1.5 ∨ v.stress = 3.0) →
      (interpret_results v).stress = "Optimal - Within native cartilage range") := by
  intro v
  refine ⟨?_, ?_, ?_, ?_, ?_, ?_, ?_⟩
  · simp only [interpret_results]
    split_ifs <;> simp
  · simp only [interpret_results]
    split_ifs <;> simp
  · simp only [interpret_results]
    split_ifs <;> simp
  · simp only [interpret_results]
    split_ifs <;> simp
  · simp only [interpret_results]
    split_ifs <;> simp
  · simp only [interpret_results]
    split_ifs <;> simp
  · intro h
    have hcond : NATIVE_CARTILAGE.stress_range.1 ≤ v.stress ∧
        v.stress ≤ NATIVE_CARTILAGE.stress_range.2 := by
      rcases h with h | h <;> rw [h] <;>
        exact ⟨by norm_num [NATIVE_CARTILAGE], by norm_num [NATIVE_CARTILAGE]⟩
    simp only [interpret_results]
    rw [if_pos hcond]

/-- Witness for C6: a bundle with stress exactly at the lower band edge. -/
theorem scartix_C6_witness :
    (interpret_results ⟨1.5, 8000, 0.5, 70, 60, 200⟩).stress =
      "Optimal - Within native cartilage range" :=
  (scartix_C6 ⟨1.5, 8000, 0.5, 70, 60, 200⟩).2.2.2.2.2.2 (Or.inl rfl)

/-- C8: the end-to-end scenario at porosity 60 — the exact interpolated
means, the recomputed cell-migration score, and the three quoted labels. -/
theorem scartix_C8 :
    get_values ((60:ℤ) : ℚ) = Except.ok (bundleOf 60) ∧
    (bundleOf 60).stress = 1.9460 ∧
    (bundleOf 60).strain = 8049.9094 ∧
    (bundleOf 60).flow_rate = 0.5 ∧
    (bundleOf 60).shear_stress = 200 ∧
    (bundleOf 60).mechanical_strength = 70.0 ∧
    (bundleOf 60).cell_migration =
      (0.5 * 0.4 + 0.5 * 0.35 + (1 - (200 - 150) / 150) * 0.25) * 100 ∧
    (interpret_results (bundleOf 60)).stress = "Optimal - Within native cartilage range" ∧
    (interpret_results (bundleOf 60)).mechanical_strength = "Good - Suitable for load-bearing" ∧
    (interpret_results (bundleOf 60)).cell_migration = "Fair - Limited cell distribution" := by
  have hst : (bundleOf 60).stress = 1.9460 := by
    rw [stress_low 60 (by omega)]
    norm_num
  have hsr : (bundleOf 60).strain = 8049.9094 := by
    rw [strain_low 60 (by omega)]
    norm_num
  have hfl : (bundleOf 60).flow_rate = 0.5 := by
    rw [flow_low 60 (by omega)]
    norm_num
  have hsh : (bundleOf 60).shear_stress = 200 := by
    rw [shear_low 60 (by omega)]
    norm_num
  have hme : (bundleOf 60).mechanical_strength = 70 := by
    rw [mech_eq]
    norm_num
  have hcm : (bundleOf 60).cell_migration = 325 / 6 := by
    rw [cm_low 60 (by omega) (by omega)]
    norm_num
  refine ⟨get_values_eq 60 (by omega) (by omega), hst, hsr, hfl, hsh,
    by rw [hme]; norm_num, by rw [hcm]; norm_num, ?_, ?_, ?_⟩
  · simp only [interpret_results]
    rw [if_pos ⟨by rw [hst]; norm_num [NATIVE_CARTILAGE],
      by rw [hst]; norm_num [NATIVE_CARTILAGE]⟩]
  · simp only [interpret_results]
    rw [if_neg (by rw [hme]; norm_num),
      if_pos ⟨by rw [hme]; norm_num, by rw [hme]; norm_num⟩]
  · simp only [interpret_results]
    rw [if_neg (by rw [hcm]; norm_num),
      if_neg (by rw [hcm]; norm_num),
      if_pos ⟨by rw [hcm]; norm_num, by rw [hcm]; norm_num⟩]

end ClaimsC
end Scartix
